import Mathlib

/-!
Shallow embedding of the narrative-point ledger of
`mynfini/narrative_points_system_complete.py` (class `NarrativePointsSystem`),
together with proofs of the ledger properties stated in the specification.

Modelling conventions:
* Python `defaultdict(int)` / `defaultdict(list)` become total functions
  `String → Int` / `String → List NPTransaction` with default `0` / `[]`;
  the observable behaviour (`dict.get(k, default)` and `d[k]` reads) agrees.
* The `uuid.uuid4()` transaction id is modelled by a fresh-counter field
  `next_id`: each created transaction receives the current counter value and
  the counter is incremented, which preserves the observable property that
  ids are unique and record creation order.  The `datetime` timestamp field
  carries no information beyond creation order and is not modelled separately.
* Python floats `0.7, 0.5, 0.4, 0.3, 0.2, 0.0` become the exact rationals
  `7/10, 1/2, 2/5, 3/10, 1/5, 0`; every comparison performed by the source on
  these constants has the same outcome for the doubles and the rationals.
* A dynamically-typed argument that the source looks up with
  `dict.get(x, 1)` is modelled by a wrapper type with a `known` constructor
  (a member of the enumeration) and an extra constructor standing for any
  value outside the enumeration.
-/

namespace Mynfini

/-- Enumeration `class NPEarningTrigger(Enum)` (lines 14–24). -/
inductive NPEarningTrigger where
  | RISK_TAKING
  | ROLEPLAYING_DEPTH
  | EMOTIONAL_INVESTMENT
  | STORY_ADVANCEMENT
  | CHARACTER_GROWTH
  | SACRIFICIAL_CHOICE
  | CREATIVE_PROBLEM_SOLVING
  | DRAMATIC_TIMING
  | RELATIONSHIP_DEVELOPMENT
  deriving DecidableEq, Repr

/-- Enumeration `class NPActivity(Enum)` (lines 26–35). -/
inductive NPActivity where
  | RETCON_SCENE
  | INTRODUCE_ELEMENT
  | EMPOWER_CHARACTER
  | NARRATIVE_ESCAPE
  | DRAMATIC_REVEAL
  | CHARACTER_RETCON
  | ENVIRONMENT_MANIPULATION
  | FORESHADOWING
  deriving DecidableEq, Repr

/-- A `trigger` argument as passed dynamically in Python: either a member of
the `NPEarningTrigger` enumeration, or any other value (all such values are
observationally equal for the ledger: `earning_rates.get(trigger, 1)` maps
each of them to the default `1`). -/
inductive TriggerArg where
  | known (t : NPEarningTrigger)
  | unknown
  deriving DecidableEq, Repr

/-- An `activity` argument as passed dynamically in Python: a member of the
`NPActivity` enumeration or any value outside it. -/
inductive ActivityArg where
  | known (a : NPActivity)
  | unknown
  deriving DecidableEq, Repr

/-- Record `@dataclass NPTransaction` (lines 47–58).  `scene_context` is an opaque
blob never interpreted by the ledger, modelled as an optional string. -/
structure NPTransaction where
  id : Nat
  amount : Int
  balance_after : Int
  description : String
  trigger : Option TriggerArg := none
  activity : Option ActivityArg := none
  character_id : Option String := none
  scene_context : Option String := none
  deriving DecidableEq, Repr

/-- State of `class NarrativePointsSystem` (lines 66–71), plus the
fresh-id counter modelling `uuid.uuid4()` generation order. -/
structure NarrativePointsSystem where
  player_balances : String → Int
  transaction_history : String → List NPTransaction
  earnings_this_session : String → Int
  spending_this_session : String → Int
  current_scene_points : Int
  next_id : Nat

/-- Constructor `__init__` (lines 66–71): all maps empty (default `0` / `[]`). -/
def NarrativePointsSystem.init : NarrativePointsSystem where
  player_balances := fun _ => 0
  transaction_history := fun _ => []
  earnings_this_session := fun _ => 0
  spending_this_session := fun _ => 0
  current_scene_points := 0
  next_id := 0

/-- Table `self.earning_rates` (lines 74–84). -/
def earning_rates : NPEarningTrigger → Int
  | .RISK_TAKING => 2
  | .ROLEPLAYING_DEPTH => 3
  | .EMOTIONAL_INVESTMENT => 2
  | .STORY_ADVANCEMENT => 1
  | .CHARACTER_GROWTH => 2
  | .SACRIFICIAL_CHOICE => 4
  | .CREATIVE_PROBLEM_SOLVING => 2
  | .DRAMATIC_TIMING => 1
  | .RELATIONSHIP_DEVELOPMENT => 1

/-- Lookup `self.earning_rates.get(trigger, 1)` (line 100): a value outside the
enumeration falls back to the default `1`. -/
def earning_rates_get : TriggerArg → Int
  | .known t => earning_rates t
  | .unknown => 1

/-- Table `self.activity_costs` (lines 86–95). -/
def activity_costs : NPActivity → Int
  | .RETCON_SCENE => 5
  | .INTRODUCE_ELEMENT => 3
  | .EMPOWER_CHARACTER => 4
  | .NARRATIVE_ESCAPE => 6
  | .DRAMATIC_REVEAL => 2
  | .CHARACTER_RETCON => 8
  | .ENVIRONMENT_MANIPULATION => 3
  | .FORESHADOWING => 2

/-- Lookup `self.activity_costs.get(activity, 1)` (line 129): a value outside the
enumeration falls back to the default `1`. -/
def activity_costs_get : ActivityArg → Int
  | .known a => activity_costs a
  | .unknown => 1

/-- Python truthiness of an `Optional[str]`: `None` and `""` are falsy. -/
def strTruthy : Option String → Bool
  | none => false
  | some s => decide (s ≠ "")

/-- Method `earn_points` (lines 97–119).  Returns the Python return value (the
amount) together with the post state. -/
def earn_points (self : NarrativePointsSystem) (trigger : TriggerArg)
    (description : String) (character_id : Option String := none)
    (scene_context : Option String := none) : Int × NarrativePointsSystem :=
  let amount := earning_rates_get trigger
  if strTruthy character_id then
    let cid := character_id.getD ""
    let newBalance := self.player_balances cid + amount
    let transaction : NPTransaction :=
      { id := self.next_id
        trigger := some trigger
        amount := amount
        balance_after := newBalance
        description := description
        character_id := some cid
        scene_context := scene_context }
    (amount,
      { self with
        player_balances := Function.update self.player_balances cid newBalance
        transaction_history := Function.update self.transaction_history cid
          (self.transaction_history cid ++ [transaction])
        earnings_this_session := Function.update self.earnings_this_session cid
          (self.earnings_this_session cid + amount)
        next_id := self.next_id + 1 })
  else
    (amount, self)

/-- Lines 125–127 of `spend_points`: a falsy `character_id` (Python `None` or
`""`) is replaced by the generic account `"session_general"`. -/
def resolveAccount (character_id : Option String) : String :=
  if strTruthy character_id then character_id.getD "" else "session_general"

/-- Method `spend_points` (lines 121–150).  Returns the Python boolean return value
together with the post state. -/
def spend_points (self : NarrativePointsSystem) (activity : ActivityArg)
    (description : String) (character_id : Option String := none)
    (scene_context : Option String := none) : Bool × NarrativePointsSystem :=
  let cid := resolveAccount character_id
  let cost := activity_costs_get activity
  if cost ≤ self.player_balances cid then
    let newBalance := self.player_balances cid - cost
    let transaction : NPTransaction :=
      { id := self.next_id
        activity := some activity
        amount := cost
        balance_after := newBalance
        description := description
        character_id := some cid
        scene_context := scene_context }
    (true,
      { self with
        player_balances := Function.update self.player_balances cid newBalance
        transaction_history := Function.update self.transaction_history cid
          (self.transaction_history cid ++ [transaction])
        spending_this_session := Function.update self.spending_this_session cid
          (self.spending_this_session cid + cost)
        next_id := self.next_id + 1 })
  else
    (false, self)

/-- Method `get_balance` (lines 152–154): `self.player_balances.get(character_id, 0)`. -/
def get_balance (self : NarrativePointsSystem)
    (character_id : String := "session_general") : Int :=
  self.player_balances character_id

/-- Method `get_session_earnings` (lines 156–158). -/
def get_session_earnings (self : NarrativePointsSystem)
    (character_id : String := "session_general") : Int :=
  self.earnings_this_session character_id

/-- Method `get_session_spending` (lines 160–162). -/
def get_session_spending (self : NarrativePointsSystem)
    (character_id : String := "session_general") : Int :=
  self.spending_this_session character_id

/-- Python truthiness of an `Optional[int]`: `None` and `0` are falsy. -/
def intTruthy : Option Int → Bool
  | none => false
  | some n => decide (n ≠ 0)

/-- Python slice `l[start:]` for a possibly negative `start` index, with
Python's clamping semantics. -/
def pySliceFrom (l : List NPTransaction) (start : Int) : List NPTransaction :=
  if start < 0 then l.drop (l.length - (-start).toNat) else l.drop start.toNat

/-- Method `get_transaction_history` (lines 164–169): `history[-limit:]` when
`limit` is truthy (not `None` and nonzero), the full list otherwise. -/
def get_transaction_history (self : NarrativePointsSystem)
    (character_id : String := "session_general") (limit : Option Int := none) :
    List NPTransaction :=
  let history := self.transaction_history character_id
  if intTruthy limit then pySliceFrom history (-(limit.getD 0)) else history

/-- Method `calculate_narrative_pressure` (lines 232–245).  The source also reads
`get_session_earnings` into a local variable it never uses; the returned
value depends only on the balance. -/
def calculate_narrative_pressure (self : NarrativePointsSystem)
    (character_id : String := "session_general") : Rat :=
  let current_balance := get_balance self character_id
  if current_balance < 2 then 7/10
  else if current_balance < 5 then 2/5
  else if current_balance < 10 then 1/5
  else 0

/-- Python `int(q)` on a rational: truncation toward zero.  For the
nonnegative products that occur here this equals the floor.  (The source
multiplies by the floats `0.5` and `0.3`; `x * 0.5` is exact, and `x * 0.3`
agrees with the rational product after truncation for every amount in the
configured rate table.) -/
def pyInt (q : Rat) : Int := Int.tdiv q.num (q.den : Int)

/-- Method `apply_narrative_pressure_bonus` (lines 262–273).  Note it reads the
pressure of the default account `"session_general"` and ignores `trigger`,
exactly as the source does; no method of the class ever calls it. -/
def apply_narrative_pressure_bonus (self : NarrativePointsSystem)
    (trigger : TriggerArg) (original_amount : Int) : Int :=
  let pressure := calculate_narrative_pressure self
  if 1/2 < pressure then
    let bonus := max 1 (pyInt ((original_amount : Rat) * (1/2)))
    original_amount + bonus
  else if 3/10 < pressure then
    let bonus := max 1 (pyInt ((original_amount : Rat) * (3/10)))
    original_amount + bonus
  else
    original_amount

/-- Method `reset_session_data` (lines 275–279): clears both session maps and
zeroes `current_scene_points`. -/
def reset_session_data (self : NarrativePointsSystem) : NarrativePointsSystem :=
  { self with
    earnings_this_session := fun _ => 0
    spending_this_session := fun _ => 0
    current_scene_points := 0 }

/-! ### Operation sequences

The mutating entry points of the class, as one step relation, to state
reachability invariants over arbitrary call sequences. -/

/-- One mutating call on the ledger. -/
inductive LedgerOp where
  | earn (trigger : TriggerArg) (description : String)
      (character_id : Option String) (scene_context : Option String)
  | spend (activity : ActivityArg) (description : String)
      (character_id : Option String) (scene_context : Option String)
  | reset

/-- Execute one mutating call, keeping only the post state. -/
def execOp (self : NarrativePointsSystem) : LedgerOp → NarrativePointsSystem
  | .earn t d c sc => (earn_points self t d c sc).2
  | .spend a d c sc => (spend_points self a d c sc).2
  | .reset => reset_session_data self

/-- Execute a sequence of mutating calls from a given state. -/
def execOps (self : NarrativePointsSystem) (ops : List LedgerOp) :
    NarrativePointsSystem :=
  ops.foldl execOp self

/-! ### Derived notions used by the specification -/

/-- A transaction is an earn record iff its `trigger` field is set
(`earn_points` sets `trigger` and leaves `activity` at its `None` default;
`spend_points` does the opposite). -/
def NPTransaction.isEarn (tx : NPTransaction) : Bool := tx.trigger.isSome

/-- Replay a transaction list from zero: `+amount` for earn records,
`−amount` for spend records. -/
def replayBalance (txs : List NPTransaction) : Int :=
  txs.foldl (fun acc tx => if tx.isEarn then acc + tx.amount else acc - tx.amount) 0

/-- Total points ever earned by an account: the sum of the amounts of its
earn transactions.  (The class stores no such counter; the specification
defines it as the total over the account's transaction log.) -/
def lifetime_earned (self : NarrativePointsSystem) (character_id : String) : Int :=
  (((self.transaction_history character_id).filter fun tx => tx.isEarn).map
    fun tx => tx.amount).sum

/-- Total points ever spent by an account: the sum of the amounts of its
spend transactions. -/
def lifetime_spent (self : NarrativePointsSystem) (character_id : String) : Int :=
  (((self.transaction_history character_id).filter fun tx => !tx.isEarn).map
    fun tx => tx.amount).sum

/-! ### Basic lemmas -/

theorem earning_rates_get_pos (t : TriggerArg) : 0 < earning_rates_get t := by
  cases t with
  | known t => cases t <;> decide
  | unknown => decide

theorem activity_costs_get_pos (a : ActivityArg) : 0 < activity_costs_get a := by
  cases a with
  | known a => cases a <;> decide
  | unknown => decide

theorem replayBalance_append (l : List NPTransaction) (tx : NPTransaction) :
    replayBalance (l ++ [tx]) =
      if tx.isEarn then replayBalance l + tx.amount
      else replayBalance l - tx.amount := by
  simp [replayBalance, List.foldl_append]

/-- The reachability invariant of the ledger: balances are nonnegative,
each account's log replays to its balance, all recorded ids are below the
fresh counter, amounts are positive, and ids are strictly increasing along
each account's log. -/
def Inv (s : NarrativePointsSystem) : Prop :=
  ∀ c : String,
    0 ≤ s.player_balances c ∧
    replayBalance (s.transaction_history c) = s.player_balances c ∧
    (∀ tx ∈ s.transaction_history c, tx.id < s.next_id ∧ 0 < tx.amount) ∧
    (s.transaction_history c).Pairwise (fun a b => a.id < b.id)

theorem inv_init : Inv NarrativePointsSystem.init := by
  intro c
  simp [NarrativePointsSystem.init, replayBalance]

theorem inv_earn (s : NarrativePointsSystem) (hs : Inv s) (t : TriggerArg)
    (d : String) (c : Option String) (sc : Option String) :
    Inv (earn_points s t d c sc).2 := by
  by_cases h : strTruthy c
  · simp only [earn_points, h, if_true]
    intro c'
    obtain ⟨hbal, hrep, hid, hpw⟩ := hs c'
    by_cases hc : c' = c.getD ""
    · subst hc
      refine ⟨?_, ?_, ?_, ?_⟩
      · simp only [Function.update_same]
        have := earning_rates_get_pos t
        omega
      · simp [Function.update_same, replayBalance_append, NPTransaction.isEarn]
        omega
      · simp only [Function.update_same]
        intro tx htx
        rcases List.mem_append.mp htx with h1 | h1
        · have := hid tx h1
          exact ⟨by omega, this.2⟩
        · rcases List.mem_singleton.mp h1 with rfl
          exact ⟨Nat.lt_succ_self _, earning_rates_get_pos t⟩
      · simp only [Function.update_same]
        rw [List.pairwise_append]
        refine ⟨hpw, List.pairwise_singleton _ _, ?_⟩
        intro a ha b hb
        rcases List.mem_singleton.mp hb with rfl
        exact (hid a ha).1
    · refine ⟨?_, ?_, ?_, ?_⟩ <;>
        simp only [Function.update_noteq hc]
      · exact hbal
      · exact hrep
      · intro tx htx
        have := hid tx htx
        exact ⟨by omega, this.2⟩
      · exact hpw
  · simp only [earn_points, h, if_false]
    exact hs

theorem inv_spend (s : NarrativePointsSystem) (hs : Inv s) (a : ActivityArg)
    (d : String) (c : Option String) (sc : Option String) :
    Inv (spend_points s a d c sc).2 := by
  by_cases h : activity_costs_get a ≤ s.player_balances (resolveAccount c)
  · simp only [spend_points, h, if_true]
    intro c'
    obtain ⟨hbal, hrep, hid, hpw⟩ := hs c'
    by_cases hc : c' = resolveAccount c
    · subst hc
      refine ⟨?_, ?_, ?_, ?_⟩
      · simp only [Function.update_same]
        omega
      · simp [Function.update_same, replayBalance_append, NPTransaction.isEarn]
        omega
      · simp only [Function.update_same]
        intro tx htx
        rcases List.mem_append.mp htx with h1 | h1
        · have := hid tx h1
          exact ⟨by omega, this.2⟩
        · rcases List.mem_singleton.mp h1 with rfl
          exact ⟨Nat.lt_succ_self _, activity_costs_get_pos a⟩
      · simp only [Function.update_same]
        rw [List.pairwise_append]
        refine ⟨hpw, List.pairwise_singleton _ _, ?_⟩
        intro x hx b hb
        rcases List.mem_singleton.mp hb with rfl
        exact (hid x hx).1
    · refine ⟨?_, ?_, ?_, ?_⟩ <;>
        simp only [Function.update_noteq hc]
      · exact hbal
      · exact hrep
      · intro tx htx
        have := hid tx htx
        exact ⟨by omega, this.2⟩
      · exact hpw
  · simp only [spend_points, if_neg h]
    exact hs

theorem inv_reset (s : NarrativePointsSystem) (hs : Inv s) :
    Inv (reset_session_data s) := by
  intro c
  obtain ⟨hbal, hrep, hid, hpw⟩ := hs c
  exact ⟨hbal, hrep, hid, hpw⟩

theorem inv_execOp (s : NarrativePointsSystem) (hs : Inv s) (op : LedgerOp) :
    Inv (execOp s op) := by
  cases op with
  | earn t d c sc => exact inv_earn s hs t d c sc
  | spend a d c sc => exact inv_spend s hs a d c sc
  | reset => exact inv_reset s hs

theorem inv_execOps (ops : List LedgerOp) :
    ∀ s : NarrativePointsSystem, Inv s → Inv (execOps s ops) := by
  induction ops with
  | nil => intro s hs; exact hs
  | cons op ops ih =>
      intro s hs
      exact ih (execOp s op) (inv_execOp s hs op)

theorem inv_reachable (ops : List LedgerOp) :
    Inv (execOps NarrativePointsSystem.init ops) :=
  inv_execOps ops NarrativePointsSystem.init inv_init

/-- Replaying a log equals total earned minus total spent. -/
theorem replayBalance_eq (l : List NPTransaction) :
    replayBalance l
      = ((l.filter fun tx => tx.isEarn).map fun tx => tx.amount).sum
        - ((l.filter fun tx => !tx.isEarn).map fun tx => tx.amount).sum := by
  induction l using List.reverseRecOn with
  | nil => simp [replayBalance]
  | append_singleton l tx ih =>
      rw [replayBalance_append]
      by_cases he : tx.isEarn
      · simp [List.filter_append, he, ih]
        omega
      · simp [List.filter_append, he, ih]
        omega


theorem lifetime_earned_step (s : NarrativePointsSystem) (op : LedgerOp)
    (c : String) : lifetime_earned s c ≤ lifetime_earned (execOp s op) c := by
  cases op with
  | earn t d cid sc =>
      simp only [execOp]
      by_cases h : strTruthy cid
      · simp only [earn_points, h, if_true]
        unfold lifetime_earned
        by_cases hc : c = cid.getD ""
        · subst hc
          simp only [Function.update_same]
          have hpos := earning_rates_get_pos t
          simp [List.filter_append, NPTransaction.isEarn]
          omega
        · simp [Function.update_noteq hc]
      · simp [earn_points, h]
  | spend a d cid sc =>
      simp only [execOp]
      by_cases h : activity_costs_get a ≤ s.player_balances (resolveAccount cid)
      · simp only [spend_points, h, if_true]
        unfold lifetime_earned
        by_cases hc : c = resolveAccount cid
        · subst hc
          simp only [Function.update_same]
          simp [List.filter_append, NPTransaction.isEarn]
        · simp [Function.update_noteq hc]
      · simp [spend_points, h]
  | reset => exact le_refl _

theorem lifetime_spent_step (s : NarrativePointsSystem) (op : LedgerOp)
    (c : String) : lifetime_spent s c ≤ lifetime_spent (execOp s op) c := by
  cases op with
  | earn t d cid sc =>
      simp only [execOp]
      by_cases h : strTruthy cid
      · simp only [earn_points, h, if_true]
        unfold lifetime_spent
        by_cases hc : c = cid.getD ""
        · subst hc
          simp only [Function.update_same]
          simp [List.filter_append, NPTransaction.isEarn]
        · simp [Function.update_noteq hc]
      · simp [earn_points, h]
  | spend a d cid sc =>
      simp only [execOp]
      by_cases h : activity_costs_get a ≤ s.player_balances (resolveAccount cid)
      · simp only [spend_points, h, if_true]
        unfold lifetime_spent
        by_cases hc : c = resolveAccount cid
        · subst hc
          simp only [Function.update_same]
          have hpos := activity_costs_get_pos a
          simp [List.filter_append, NPTransaction.isEarn]
          omega
        · simp [Function.update_noteq hc]
      · simp [spend_points, h]
  | reset => exact le_refl _

/-! ### Claim theorems -/

/-- C1: for every account and every activity, a `spend_points` call either
fully succeeds — the balance is decremented by exactly the activity's cost,
exactly one spend transaction is appended to that account's history, the
session spend counter is incremented by the cost, and `true` is returned —
or, when the balance is less than the cost, fully fails: `false` is
returned and the state is completely unchanged.  Never a partial effect. -/
theorem spend_points_atomic (s : NarrativePointsSystem) (a : ActivityArg)
    (d : String) (c : Option String) (sc : Option String) :
    (activity_costs_get a ≤ s.player_balances (resolveAccount c)
      ∧ (spend_points s a d c sc).1 = true
      ∧ (spend_points s a d c sc).2.player_balances (resolveAccount c)
          = s.player_balances (resolveAccount c) - activity_costs_get a
      ∧ (∃ tx : NPTransaction,
            (spend_points s a d c sc).2.transaction_history (resolveAccount c)
              = s.transaction_history (resolveAccount c) ++ [tx]
            ∧ tx.activity = some a
            ∧ tx.isEarn = false
            ∧ tx.amount = activity_costs_get a
            ∧ tx.balance_after
                = s.player_balances (resolveAccount c) - activity_costs_get a)
      ∧ (spend_points s a d c sc).2.spending_this_session (resolveAccount c)
          = s.spending_this_session (resolveAccount c) + activity_costs_get a)
    ∨ (s.player_balances (resolveAccount c) < activity_costs_get a
        ∧ (spend_points s a d c sc).1 = false
        ∧ (spend_points s a d c sc).2 = s) := by
  by_cases h : activity_costs_get a ≤ s.player_balances (resolveAccount c)
  · left
    refine ⟨h, ?_, ?_, ?_, ?_⟩
    · simp [spend_points, h]
    · simp [spend_points, h]
    · refine ⟨{ id := s.next_id
                activity := some a
                amount := activity_costs_get a
                balance_after :=
                  s.player_balances (resolveAccount c) - activity_costs_get a
                description := d
                character_id := some (resolveAccount c)
                scene_context := sc }, ?_, rfl, rfl, rfl, rfl⟩
      simp [spend_points, h]
    · simp [spend_points, h]
  · right
    refine ⟨by omega, ?_, ?_⟩
    · simp [spend_points, h]
    · simp [spend_points, h]

/-- C2: for every account and every sequence of ledger operations, replaying
the account's full transaction history from zero — adding the amount of each
earn transaction and subtracting the amount of each spend transaction —
reproduces the balance returned by `get_balance` exactly. -/
theorem replay_consistency (ops : List LedgerOp) (c : String) :
    replayBalance
        (get_transaction_history (execOps NarrativePointsSystem.init ops) c none)
      = get_balance (execOps NarrativePointsSystem.init ops) c := by
  have h := (inv_reachable ops c).2.1
  simpa [get_transaction_history, intTruthy, get_balance] using h

/-- C3: for every account, at every point in every sequence of ledger
operations (`reset_session_data` included), the balance equals
`lifetime_earned − lifetime_spent`, where the lifetime totals are
nonnegative and monotonically non-decreasing under every further operation. -/
theorem lifetime_invariant (ops : List LedgerOp) (c : String) :
    get_balance (execOps NarrativePointsSystem.init ops) c
        = lifetime_earned (execOps NarrativePointsSystem.init ops) c
          - lifetime_spent (execOps NarrativePointsSystem.init ops) c
    ∧ 0 ≤ lifetime_earned (execOps NarrativePointsSystem.init ops) c
    ∧ 0 ≤ lifetime_spent (execOps NarrativePointsSystem.init ops) c
    ∧ ∀ op : LedgerOp,
        lifetime_earned (execOps NarrativePointsSystem.init ops) c
          ≤ lifetime_earned (execOp (execOps NarrativePointsSystem.init ops) op) c
        ∧ lifetime_spent (execOps NarrativePointsSystem.init ops) c
          ≤ lifetime_spent (execOp (execOps NarrativePointsSystem.init ops) op) c := by
  obtain ⟨hbal, hrep, hid, hpw⟩ := inv_reachable ops c
  have h2 := replayBalance_eq
    ((execOps NarrativePointsSystem.init ops).transaction_history c)
  refine ⟨?_, ?_, ?_, ?_⟩
  · unfold lifetime_earned lifetime_spent get_balance
    omega
  · unfold lifetime_earned
    apply List.sum_nonneg
    intro x hx
    rcases List.mem_map.mp hx with ⟨tx, htx, rfl⟩
    have := (hid tx (List.mem_of_mem_filter htx)).2
    omega
  · unfold lifetime_spent
    apply List.sum_nonneg
    intro x hx
    rcases List.mem_map.mp hx with ⟨tx, htx, rfl⟩
    have := (hid tx (List.mem_of_mem_filter htx)).2
    omega
  · intro op
    exact ⟨lifetime_earned_step _ op c, lifetime_spent_step _ op c⟩

/-- C4: under every finite sequence of ledger operations every balance
returned by `get_balance` is nonnegative; moreover a spend returns `false`
exactly when the resolved account's balance is below the activity's cost,
and such a rejected spend leaves the state unchanged (rejected, not
clamped). -/
theorem balance_nonneg_spec :
    (∀ (ops : List LedgerOp) (c : String),
        0 ≤ get_balance (execOps NarrativePointsSystem.init ops) c)
    ∧ (∀ (s : NarrativePointsSystem) (a : ActivityArg) (d : String)
          (c : Option String) (sc : Option String),
        (spend_points s a d c sc).1 = false ↔
          s.player_balances (resolveAccount c) < activity_costs_get a)
    ∧ (∀ (s : NarrativePointsSystem) (a : ActivityArg) (d : String)
          (c : Option String) (sc : Option String),
        s.player_balances (resolveAccount c) < activity_costs_get a →
          (spend_points s a d c sc).2 = s) := by
  refine ⟨?_, ?_, ?_⟩
  · intro ops c
    exact (inv_reachable ops c).1
  · intro s a d c sc
    by_cases h : activity_costs_get a ≤ s.player_balances (resolveAccount c)
    · simp only [spend_points, h, if_true]
      constructor
      · intro hf
        exact absurd hf (by simp)
      · intro hlt
        omega
    · simp only [spend_points, h, if_false]
      constructor
      · intro _
        omega
      · intro _
        trivial
  · intro s a d c sc hlt
    have h : ¬ activity_costs_get a ≤ s.player_balances (resolveAccount c) := by
      omega
    simp [spend_points, h]

/-- C4 witness: on a fresh ledger the account `"alice"` cannot afford
`RETCON_SCENE` (cost 5) and the rejected spend leaves the state unchanged. -/
theorem balance_nonneg_spec_witness :
    NarrativePointsSystem.init.player_balances (resolveAccount (some "alice"))
        < activity_costs_get (.known .RETCON_SCENE)
    ∧ (spend_points NarrativePointsSystem.init (.known .RETCON_SCENE)
        "undo disaster" (some "alice") none).2 = NarrativePointsSystem.init :=
  ⟨by decide, balance_nonneg_spec.2.2 NarrativePointsSystem.init
      (.known .RETCON_SCENE) "undo disaster" (some "alice") none (by decide)⟩

/-- C7: `calculate_narrative_pressure` is a pure function of the current
balance (equal balances give equal pressure, in particular repeated reads
are identical), takes the values `0.7` for balance below 2, `0.4` below 5,
`0.2` below 10 and `0.0` otherwise, stays within `[0, 1]`, and is
non-increasing in the balance. -/
theorem pressure_spec :
    (∀ (s₁ s₂ : NarrativePointsSystem) (c₁ c₂ : String),
        get_balance s₁ c₁ = get_balance s₂ c₂ →
          calculate_narrative_pressure s₁ c₁ = calculate_narrative_pressure s₂ c₂)
    ∧ (∀ (s : NarrativePointsSystem) (c : String),
        calculate_narrative_pressure s c
          = if get_balance s c < 2 then 7/10
            else if get_balance s c < 5 then 2/5
            else if get_balance s c < 10 then 1/5
            else 0)
    ∧ (∀ (s : NarrativePointsSystem) (c : String),
        0 ≤ calculate_narrative_pressure s c
          ∧ calculate_narrative_pressure s c ≤ 1)
    ∧ (∀ (s₁ s₂ : NarrativePointsSystem) (c₁ c₂ : String),
        get_balance s₁ c₁ ≤ get_balance s₂ c₂ →
          calculate_narrative_pressure s₂ c₂ ≤ calculate_narrative_pressure s₁ c₁) := by
  have hval : ∀ (s : NarrativePointsSystem) (c : String),
      calculate_narrative_pressure s c
        = if get_balance s c < 2 then 7/10
          else if get_balance s c < 5 then 2/5
          else if get_balance s c < 10 then 1/5
          else 0 := fun s c => rfl
  refine ⟨?_, hval, ?_, ?_⟩
  · intro s₁ s₂ c₁ c₂ h
    rw [hval, hval, h]
  · intro s c
    rw [hval]
    split_ifs <;> norm_num
  · intro s₁ s₂ c₁ c₂ h
    rw [hval, hval]
    split_ifs <;> try norm_num
    all_goals omega

/-- C7 witness: two fresh accounts with equal zero balances have equal
pressure, and raising the balance can only lower the pressure. -/
theorem pressure_spec_witness :
    (get_balance NarrativePointsSystem.init "alice"
        = get_balance NarrativePointsSystem.init "bob"
      ∧ calculate_narrative_pressure NarrativePointsSystem.init "alice"
          = calculate_narrative_pressure NarrativePointsSystem.init "bob")
    ∧ (get_balance NarrativePointsSystem.init "alice"
        ≤ get_balance NarrativePointsSystem.init "bob"
      ∧ calculate_narrative_pressure NarrativePointsSystem.init "bob"
          ≤ calculate_narrative_pressure NarrativePointsSystem.init "alice") :=
  ⟨⟨rfl, pressure_spec.1 _ _ _ _ rfl⟩,
   ⟨le_refl _, pressure_spec.2.2.2 _ _ _ _ (le_refl _)⟩⟩

/-- C8: `reset_session_data` zeroes every account's session-earned and
session-spent counters and leaves the balance, the transaction history and
the lifetime totals of every account exactly as they were. -/
theorem reset_session_spec (s : NarrativePointsSystem) (c : String) :
    get_session_earnings (reset_session_data s) c = 0
    ∧ get_session_spending (reset_session_data s) c = 0
    ∧ get_balance (reset_session_data s) c = get_balance s c
    ∧ get_transaction_history (reset_session_data s) c none
        = get_transaction_history s c none
    ∧ lifetime_earned (reset_session_data s) c = lifetime_earned s c
    ∧ lifetime_spent (reset_session_data s) c = lifetime_spent s c :=
  ⟨rfl, rfl, rfl, rfl, rfl, rfl⟩

/-- C9: `earn_points` with `character_id = None` returns the trigger's rate
amount and performs no state change at all, whereas `spend_points` with
`character_id = None` behaves exactly like a spend on the reserved account
`"session_general"` and, when affordable, mutates that account's state
(balance decremented, one transaction appended). -/
theorem none_character_id_spec :
    (∀ (s : NarrativePointsSystem) (t : TriggerArg) (d : String)
        (sc : Option String),
        earn_points s t d none sc = (earning_rates_get t, s))
    ∧ (∀ (s : NarrativePointsSystem) (a : ActivityArg) (d : String)
          (sc : Option String),
        spend_points s a d none sc = spend_points s a d (some "session_general") sc)
    ∧ (∀ (s : NarrativePointsSystem) (a : ActivityArg) (d : String)
          (sc : Option String),
        activity_costs_get a ≤ s.player_balances "session_general" →
          (spend_points s a d none sc).1 = true
          ∧ (spend_points s a d none sc).2.player_balances "session_general"
              = s.player_balances "session_general" - activity_costs_get a
          ∧ ((spend_points s a d none sc).2.transaction_history
              "session_general").length
              = (s.transaction_history "session_general").length + 1) := by
  refine ⟨?_, ?_, ?_⟩
  · intro s t d sc
    rfl
  · intro s a d sc
    rfl
  · intro s a d sc h
    have hr : resolveAccount (none : Option String) = "session_general" := rfl
    have h2 : activity_costs_get a
        ≤ s.player_balances (resolveAccount (none : Option String)) := h
    refine ⟨?_, ?_, ?_⟩
    · simp [spend_points, h2]
    · simp [spend_points, hr, h]
    · simp [spend_points, hr, h]

/-- C9 witness: after earning 2 points on `"session_general"`, a spend of
`DRAMATIC_REVEAL` (cost 2) with `character_id = None` succeeds and appends
one transaction to that account. -/
theorem none_character_id_spec_witness :
    activity_costs_get (.known .DRAMATIC_REVEAL)
      ≤ (execOps NarrativePointsSystem.init
          [.earn (.known .RISK_TAKING) "took a leap" (some "session_general") none]
        ).player_balances "session_general"
    ∧ (spend_points
        (execOps NarrativePointsSystem.init
          [.earn (.known .RISK_TAKING) "took a leap" (some "session_general") none])
        (.known .DRAMATIC_REVEAL) "reveal" none none).1 = true :=
  ⟨by decide, (none_character_id_spec.2.2 _ _ _ _ (by decide)).1⟩

/-- C10: `get_transaction_history` returns the stored history in order:
with `limit` omitted (`None`) or `0` it returns the full history; with a
positive `limit` `n` it returns exactly the last `n` transactions (all of
them when fewer than `n` exist), a suffix of the chronological log; and on
every reachable state each account's log carries strictly increasing
transaction ids, i.e. is chronologically ordered, most recent last. -/
theorem history_limit_spec :
    (∀ (s : NarrativePointsSystem) (c : String),
        get_transaction_history s c none = s.transaction_history c)
    ∧ (∀ (s : NarrativePointsSystem) (c : String),
        get_transaction_history s c (some 0) = s.transaction_history c)
    ∧ (∀ (s : NarrativePointsSystem) (c : String) (n : Int), 0 < n →
        get_transaction_history s c (some n)
          = (s.transaction_history c).drop
              ((s.transaction_history c).length - n.toNat)
        ∧ (get_transaction_history s c (some n)).length
            = min n.toNat (s.transaction_history c).length
        ∧ get_transaction_history s c (some n) <:+ s.transaction_history c)
    ∧ (∀ (s : NarrativePointsSystem) (c : String) (n : Int), 0 < n →
        (s.transaction_history c).length ≤ n.toNat →
          get_transaction_history s c (some n) = s.transaction_history c)
    ∧ (∀ (ops : List LedgerOp) (c : String),
        ((execOps NarrativePointsSystem.init ops).transaction_history c).Pairwise
          (fun a b => a.id < b.id)) := by
  have hpos : ∀ (s : NarrativePointsSystem) (c : String) (n : Int), 0 < n →
      get_transaction_history s c (some n)
        = (s.transaction_history c).drop
            ((s.transaction_history c).length - n.toNat) := by
    intro s c n hn
    have hne : n ≠ 0 := by omega
    have hneg : -n < 0 := by omega
    simp only [get_transaction_history, intTruthy, hne, decide_not,
      Option.getD_some, pySliceFrom, hneg, if_true, decide_True]
    simp [hneg, neg_neg]
  refine ⟨?_, ?_, ?_, ?_, ?_⟩
  · intro s c
    rfl
  · intro s c
    rfl
  · intro s c n hn
    refine ⟨hpos s c n hn, ?_, ?_⟩
    · rw [hpos s c n hn, List.length_drop]
      omega
    · rw [hpos s c n hn]
      exact ⟨_, List.take_append_drop _ _⟩
  · intro s c n hn hlen
    rw [hpos s c n hn]
    simp [Nat.sub_eq_zero_of_le hlen]
  · intro ops c
    exact (inv_reachable ops c).2.2.2

/-- C10 witness: on a ledger with two transactions for `"alice"`, a limit of
`1` returns exactly the last transaction, and a limit of `5` (larger than
the history) returns the full history. -/
theorem history_limit_spec_witness :
    (0 : Int) < 1
    ∧ (get_transaction_history
        (execOps NarrativePointsSystem.init
          [.earn (.known .RISK_TAKING) "a" (some "alice") none,
           .earn (.known .DRAMATIC_TIMING) "b" (some "alice") none])
        "alice" (some 1)).length
        = min (1 : Int).toNat
            ((execOps NarrativePointsSystem.init
              [.earn (.known .RISK_TAKING) "a" (some "alice") none,
               .earn (.known .DRAMATIC_TIMING) "b" (some "alice") none]
             ).transaction_history "alice").length :=
  ⟨by decide,
   (history_limit_spec.2.2.1
      (execOps NarrativePointsSystem.init
        [.earn (.known .RISK_TAKING) "a" (some "alice") none,
         .earn (.known .DRAMATIC_TIMING) "b" (some "alice") none])
      "alice" 1 (by decide)).2.1⟩

/-- C5 counterexample: on a fresh ledger, `earn_points("alice",
RISK_TAKING, ...)` returns the bare base rate 2 and leaves `"alice"` with
balance 2 — not the claimed pressure-boosted 3 — because `earn_points`
never invokes the pressure bonus. -/
theorem earn_fresh_no_bonus_cex :
    (earn_points NarrativePointsSystem.init (.known .RISK_TAKING) "took a leap"
        (some "alice") none).1 = 2
    ∧ get_balance (earn_points NarrativePointsSystem.init (.known .RISK_TAKING)
        "took a leap" (some "alice") none).2 "alice" = 2
    ∧ ¬((earn_points NarrativePointsSystem.init (.known .RISK_TAKING)
          "took a leap" (some "alice") none).1 = 3
        ∧ get_balance (earn_points NarrativePointsSystem.init
            (.known .RISK_TAKING) "took a leap" (some "alice") none).2 "alice"
            = 3) := by
  refine ⟨by decide, by decide, ?_⟩
  rintro ⟨h3, -⟩
  exact absurd h3 (by decide)

/-- C5 (amended): on a fresh ledger, `earn_points` with `RISK_TAKING`
credits exactly the base rate 2 — no pressure bonus is applied, since
`earn_points` never calls `apply_narrative_pressure_bonus` — so the
returned amount and the resulting balance are both 2; the unused
`apply_narrative_pressure_bonus` helper, at the fresh ledger's pressure
0.7, would have mapped the base amount 2 to 3. -/
theorem earn_fresh_no_bonus :
    (earn_points NarrativePointsSystem.init (.known .RISK_TAKING) "took a leap"
        (some "alice") none).1 = 2
    ∧ get_balance (earn_points NarrativePointsSystem.init (.known .RISK_TAKING)
        "took a leap" (some "alice") none).2 "alice" = 2
    ∧ earning_rates .RISK_TAKING = 2
    ∧ calculate_narrative_pressure NarrativePointsSystem.init "alice" = 7/10
    ∧ apply_narrative_pressure_bonus NarrativePointsSystem.init
        (.known .RISK_TAKING) 2 = 3 := by
  refine ⟨by decide, by decide, rfl, by norm_num [calculate_narrative_pressure,
    get_balance, NarrativePointsSystem.init], ?_⟩
  norm_num [apply_narrative_pressure_bonus, calculate_narrative_pressure,
    get_balance, NarrativePointsSystem.init, pyInt]

/-- C6: the code does not reject values outside the enumerations — it
silently defaults them to one point.  On a fresh ledger, earning with an
unknown trigger credits 1 point to `"alice"` and appends a normal 1-point
transaction, and a subsequent spend with an unknown activity succeeds,
charging the default cost 1 and draining the balance to 0. -/
theorem unknown_values_default_to_one :
    (earn_points NarrativePointsSystem.init .unknown "mystery"
        (some "alice") none).1 = 1
    ∧ get_balance (earn_points NarrativePointsSystem.init .unknown "mystery"
        (some "alice") none).2 "alice" = 1
    ∧ (get_transaction_history (earn_points NarrativePointsSystem.init .unknown
        "mystery" (some "alice") none).2 "alice" none).length = 1
    ∧ (spend_points (earn_points NarrativePointsSystem.init .unknown "mystery"
        (some "alice") none).2 .unknown "mystery spend" (some "alice") none).1
        = true
    ∧ get_balance (spend_points (earn_points NarrativePointsSystem.init .unknown
        "mystery" (some "alice") none).2 .unknown "mystery spend"
        (some "alice") none).2 "alice" = 0 := by
  refine ⟨by decide, by decide, by decide, by decide, by decide⟩

end Mynfini
